import Mathlib

/-!
# Porter — verification of the request pipeline and navigation engine

Shallow embedding of the `porter` HTTP-workbench sources
(`src/porter/http_client.py`, `src/porter/app.py`, `src/porter/widgets.py`,
`src/porter/collections.py`) together with proofs about the spec's claims.

Modelling conventions:
* Python decoded strings (`str`) are modelled as `List Char` where character
  counting and slicing matter (Python `len`/`[:n]` count code points), and as
  Lean `String` elsewhere.
* Wall-clock instants (`time.time()`, float seconds) are modelled as rationals;
  `int(x)` is Python's truncation toward zero.
* The network layer is abstracted as a `TransportOutcome`: which of the four
  control-flow paths of `send_request` (success, or one of the three `except`
  clauses) the transport run takes, carrying the data that path reads.
* The float `timeout` parameter appears in the code only interpolated into an
  f-string message; it is modelled by its rendered decimal form `timeoutStr`.
-/

namespace Porter

/-- Embeds `HTTPResponse.__init__` (src/porter/http_client.py lines 13–25):
a plain container with status code, headers, body, duration and an optional
error string (default `None`). There is no other field — in particular no
`truncated` flag. -/
structure HTTPResponse where
  status_code : Nat
  headers : List (String × String)
  body : List Char
  duration_ms : Int
  error : Option String
deriving Repr, DecidableEq

/-- Python `int(x)` on a real value: truncation toward zero. -/
def pyInt (x : ℚ) : Int := if 0 ≤ x then ⌊x⌋ else ⌈x⌉

/-- `int((t1 - t0) * 1000)` as computed at lines 80, 96, 106 and 116 of
src/porter/http_client.py, with `t0 = start_time` sampled at line 68 and `t1`
the clock at the returning branch. -/
def duration_of (t0 t1 : ℚ) : Int := pyInt ((t1 - t0) * 1000)

/-- `max_size = 5 * 1024 * 1024` (line 84). -/
def max_size : Nat := 5 * 1024 * 1024

/-- The literal truncation marker appended at line 86. -/
def truncation_marker : List Char := "\n\n[Response truncated at 5MB]".data

/-- Embeds lines 83–86: Python `len` on the decoded `str` counts code points
(characters), and `[:max_size]` slices by characters, so the cut is by
character count, not by encoded byte length. -/
def truncate_body (b : List Char) : List Char :=
  if b.length > max_size then b.take max_size ++ truncation_marker else b

/-- Which control-flow path a run of `send_request` takes: the successful
return (lines 70–93) or one of the three `except` clauses (lines 95–123),
carrying the data that path reads from the transport layer. -/
inductive TransportOutcome
  | success (status : Nat) (headers : List (String × String)) (body : List Char)
  | timeout
  | connectError (cause : String)
  | otherError (cause : String)
deriving Repr, DecidableEq

/-- `True` exactly on the three `except`-clause paths. -/
def TransportOutcome.isFailure : TransportOutcome → Bool
  | .success _ _ _ => false
  | .timeout => true
  | .connectError _ => true
  | .otherError _ => true

/-- Embeds `send_request` (src/porter/http_client.py lines 46–123).
`t0` is `start_time` (line 68), `t1` the wall clock when the returning branch
computes its duration, `timeoutStr` the decimal rendering of the float
`timeout` parameter (used only inside the timeout message f-string).
Every path returns an `HTTPResponse`; no exception escapes, the final
`except Exception` clause being a catch-all. -/
def send_request (t0 : ℚ) (outcome : TransportOutcome) (t1 : ℚ)
    (timeoutStr : String) : HTTPResponse :=
  match outcome with
  | .success status hs b =>
      { status_code := status
        headers := hs
        body := truncate_body b
        duration_ms := duration_of t0 t1
        error := none }
  | .timeout =>
      { status_code := 0
        headers := []
        body := []
        duration_ms := duration_of t0 t1
        error := some ("Request timeout after " ++ timeoutStr ++ "s") }
  | .connectError cause =>
      { status_code := 0
        headers := []
        body := []
        duration_ms := duration_of t0 t1
        error := some ("Connection error: " ++ cause) }
  | .otherError cause =>
      { status_code := 0
        headers := []
        body := []
        duration_ms := duration_of t0 t1
        error := some ("Error: " ++ cause) }

/-- The whitespace characters stripped by Python `str.strip()` (the ASCII
ones; the URL and body fields hold keyboard input). -/
def pyIsSpace (c : Char) : Bool :=
  c = ' ' || c = '\t' || c = '\n' || c = '\r' || c = '\x0b' || c = '\x0c'

/-- Python `str.strip()` on a code-point sequence: drop leading and trailing
whitespace. -/
def pyStrip (s : List Char) : List Char :=
  ((s.dropWhile pyIsSpace).reverse.dropWhile pyIsSpace).reverse

/-- Python `s.startswith(pre)`. -/
def pyStartsWith : List Char → List Char → Bool
  | _, [] => true
  | [], _ :: _ => false
  | c :: cs, p :: ps => c = p && pyStartsWith cs ps

/-- Embeds `validate_url` (src/porter/http_client.py lines 126–148).
The Python `str` argument is its code-point sequence; `not url or not
url.strip()` is the first `if`'s condition. -/
def validate_url (url : List Char) : Bool × Option String :=
  if url = [] ∨ pyStrip url = [] then
    (false, some "URL cannot be empty")
  else
    let u := pyStrip url
    if ¬ (pyStartsWith u "http://".data ∨ pyStartsWith u "https://".data) then
      (false, some "URL must start with http:// or https://")
    else if u.contains ' ' then
      (false, some "URL cannot contain spaces")
    else
      (true, none)

/-- Embeds lines 216–217 of src/porter/app.py: the body text gathered from
the UI is stripped, and an empty result becomes `None`
(`body = body_text if body_text else None`). -/
def body_arg_of_ui (bodyText : List Char) : Option (List Char) :=
  let t := pyStrip bodyText
  if t = [] then none else some t

/-- Embeds line 76 of src/porter/http_client.py:
`content=body.encode() if body else None` — Python truthiness, so both
`None` and the empty string yield no request content at all; the encoded
bytes of a non-empty body are modelled by its code-point sequence. -/
def request_content (body : Option (List Char)) : Option (List Char) :=
  match body with
  | none => none
  | some b => if b = [] then none else some b

/-- Byte length of the UTF-8 encoding of one character (1 to 4 bytes). Used
to compare the spec's byte-based truncation threshold with the code's
character-based one. -/
def charUtf8Bytes (c : Char) : Nat :=
  if c.val < 0x80 then 1
  else if c.val < 0x800 then 2
  else if c.val < 0x10000 then 3
  else 4

/-- Byte length of the UTF-8 encoding of a decoded body. -/
def utf8ByteLength (b : List Char) : Nat := (b.map charUtf8Bytes).sum

/-! ## Focus navigation (src/porter/widgets.py)

The widgets react to a key event either by moving focus to a neighbour in
the traversal order, by doing nothing while the event still propagates to
the field's own editing behaviour (`NoOp`: the handler falls through without
`prevent_default`), or by staying put at a boundary of the order (`Stay`:
the handler consumed the key but found nowhere to go). The traversal order
is recomputed on every key event by `get_navigable_widgets` (lines 9–19); it
enters the model as the list argument `fs`, and the widget identities are an
abstract type with decidable equality. -/

/-- The effect of one key event on focus. -/
inductive NavAction (F : Type)
  | moveFocusTo (f : F)
  | noOp
  | stay
deriving Repr, DecidableEq

/-- Python `list.index` wrapped in `try/except ValueError`: the position of
the first occurrence, if any. -/
def index_of {F : Type} [DecidableEq F] : List F → F → Option Nat
  | [], _ => none
  | g :: gs, f => if g = f then some 0 else (index_of gs f).map (· + 1)

/-- Embeds `_focus_previous` (identical in `NavigableInput`,
`NavigableTextArea` and `NavigableButton`, e.g. widgets.py lines 44–55):
an empty order or an absent widget does nothing, index 0 does nothing,
otherwise the widget at `index - 1` receives focus. -/
def focus_previous {F : Type} [DecidableEq F] (fs : List F) (f : F) : NavAction F :=
  if fs.isEmpty then .stay
  else
    match index_of fs f with
    | none => .stay
    | some i => if 0 < i then ((fs.get? (i - 1)).elim .stay .moveFocusTo) else .stay

/-- Embeds `_focus_next` (e.g. widgets.py lines 57–68): symmetric to
`focus_previous`, moving to `index + 1` while not at the last position. -/
def focus_next {F : Type} [DecidableEq F] (fs : List F) (f : F) : NavAction F :=
  if fs.isEmpty then .stay
  else
    match index_of fs f with
    | none => .stay
    | some i => if i < fs.length - 1 then ((fs.get? (i + 1)).elim .stay .moveFocusTo) else .stay

/-- The four arrow keys. -/
inductive Direction
  | up
  | down
  | left
  | right
deriving Repr, DecidableEq

/-- Embeds `NavigableInput.on_key` (widgets.py lines 25–42): `up`/`down`
always navigate; `left` navigates only with the cursor at position 0 and
`right` only with the cursor at the end of the value, the key otherwise
falling through to the input's own cursor handling. -/
def input_on_key {F : Type} [DecidableEq F] (fs : List F) (self : F)
    (cursor_position value_len : Nat) : Direction → NavAction F
  | .up => focus_previous fs self
  | .down => focus_next fs self
  | .left => if cursor_position = 0 then focus_previous fs self else .noOp
  | .right => if cursor_position = value_len then focus_next fs self else .noOp

/-- Embeds `NavigableTextArea.on_key` (widgets.py lines 74–85): only `up` on
the first line and `left` at `(0, 0)` navigate (to the previous widget);
`right` and `down` are not handled at all and stay with the text area. -/
def textarea_on_key {F : Type} [DecidableEq F] (fs : List F) (self : F)
    (cursor_row cursor_col : Nat) : Direction → NavAction F
  | .up => if cursor_row = 0 then focus_previous fs self else .noOp
  | .left => if cursor_row = 0 ∧ cursor_col = 0 then focus_previous fs self else .noOp
  | .right => .noOp
  | .down => .noOp

/-- Embeds `NavigableButton.on_key` (widgets.py lines 104–115): every arrow
key navigates, `up`/`left` to the previous widget and `down`/`right` to the
next. -/
def button_on_key {F : Type} [DecidableEq F] (fs : List F) (self : F) :
    Direction → NavAction F
  | .up => focus_previous fs self
  | .down => focus_next fs self
  | .left => focus_previous fs self
  | .right => focus_next fs self

/-! ## Persistence (src/porter/collections.py)

`save_request` serializes a single request under a `{"version", "requests"}`
wrapper and `load_request` reads the first entry back, applying per-field
defaults for missing keys (`dict.get`). The JSON text layer
(`json.dump`/`json.load`), lossless on string-valued dictionaries, is
abstracted away: a collection file is represented structurally. -/

/-- Embeds `Request.__init__` (collections.py lines 16–28): every field is
stored exactly as supplied — no case normalisation and no validation of the
method string happens here. -/
structure Request where
  method : String
  url : String
  headers : List (String × String)
  body : String
  name : String
deriving Repr, DecidableEq

/-- A JSON object as written by `Request.to_dict` or read back by
`Request.from_dict`: each of the five keys may be absent (`dict.get`
supplies a default on read). -/
structure RequestDict where
  name : Option String
  method : Option String
  url : Option String
  headers : Option (List (String × String))
  body : Option String
deriving Repr, DecidableEq

/-- Embeds `Request.to_dict` (collections.py lines 30–38): all five keys are
always written. -/
def Request.to_dict (r : Request) : RequestDict :=
  { name := some r.name
    method := some r.method
    url := some r.url
    headers := some r.headers
    body := some r.body }

/-- Embeds `Request.from_dict` (collections.py lines 40–49): `data.get(key,
default)` per field. -/
def Request.from_dict (d : RequestDict) : Request :=
  { name := d.name.getD "Untitled Request"
    method := d.method.getD "GET"
    url := d.url.getD ""
    headers := d.headers.getD []
    body := d.body.getD "" }

/-- A collection file as written by `save_request` / read by `load_request`:
the `version` string and the `requests` array. -/
structure CollectionFile where
  version : String
  requests : List RequestDict
deriving Repr, DecidableEq

/-- Embeds `save_request` (collections.py lines 57–75): writes
`{"version": "1.0", "requests": [request.to_dict()]}`. -/
def save_request (r : Request) : CollectionFile :=
  { version := "1.0", requests := [r.to_dict] }

/-- Embeds `load_request` (collections.py lines 78–104) on an existing,
well-formed file: an empty `requests` array yields `None`, otherwise the
first entry is decoded with `Request.from_dict`. -/
def load_request (f : CollectionFile) : Option Request :=
  match f.requests with
  | [] => none
  | d :: _ => some (Request.from_dict d)

/-- Python `str.upper()` modelled characterwise (ASCII uppercasing — HTTP
method names are ASCII). -/
def pyUpper (s : String) : String := String.mk (s.data.map Char.toUpper)

/-- Embeds line 73 of src/porter/http_client.py: the method actually issued
on the wire is `method.upper()`. -/
def issued_method (method : String) : String := pyUpper method

/-- The seven methods offered by the UI's method selector
(src/porter/widgets.py lines 218–230). -/
def method_options : List String :=
  ["GET", "POST", "PUT", "PATCH", "DELETE", "HEAD", "OPTIONS"]

/-! ## Theorems -/

/-- Helper: `validate_url` with its first guard (`not url or not
url.strip()`) collapsed to the equivalent single test on the stripped URL
(an empty string strips to itself). -/
theorem validate_url_eq (url : List Char) :
    validate_url url =
      (if pyStrip url = [] then (false, some "URL cannot be empty")
       else if ¬ (pyStartsWith (pyStrip url) "http://".data ∨
            pyStartsWith (pyStrip url) "https://".data) then
         (false, some "URL must start with http:// or https://")
       else if (pyStrip url).contains ' ' then
         (false, some "URL cannot contain spaces")
       else (true, none)) := by
  unfold validate_url
  by_cases h : url = [] ∨ pyStrip url = []
  · rw [if_pos h, if_pos (h.elim (fun e => by rw [e]; rfl) id)]
  · rw [if_neg h, if_neg fun hs => h (Or.inr hs)]

/-- C3: `validate_url` applies its three checks in order — the empty
message exactly on blank input, the scheme message exactly on a stripped
URL with neither prefix, the space message exactly on a well-prefixed
stripped URL containing a space, success otherwise — and the three
concrete examples from the spec. -/
theorem C3_validate_url_checks (url : List Char) :
    (validate_url url = (false, some "URL cannot be empty") ↔ pyStrip url = []) ∧
    (validate_url url = (false, some "URL must start with http:// or https://") ↔
      (¬ pyStrip url = [] ∧
        ¬ (pyStartsWith (pyStrip url) "http://".data ∨
           pyStartsWith (pyStrip url) "https://".data))) ∧
    (validate_url url = (false, some "URL cannot contain spaces") ↔
      (¬ pyStrip url = [] ∧
        (pyStartsWith (pyStrip url) "http://".data ∨
         pyStartsWith (pyStrip url) "https://".data) ∧
        (pyStrip url).contains ' ' = true)) ∧
    (validate_url url = (true, none) ↔
      (¬ pyStrip url = [] ∧
        (pyStartsWith (pyStrip url) "http://".data ∨
         pyStartsWith (pyStrip url) "https://".data) ∧
        ¬ (pyStrip url).contains ' ' = true)) ∧
    validate_url "".data = (false, some "URL cannot be empty") ∧
    validate_url "   ".data = (false, some "URL cannot be empty") ∧
    validate_url "http://a b".data = (false, some "URL cannot contain spaces") := by
  refine ⟨?_, ?_, ?_, ?_, by decide, by decide, by decide⟩ <;>
    · rw [validate_url_eq]
      split_ifs with h1 h2 h3 <;> simp_all

/-- C5: composed through the UI layer (`app.py` strips the body text and
turns a blank one into `None`) and the transport layer (Python truthiness
drops `None` and the empty string), a blank body field produces no request
content at all, and a body with non-whitespace content is sent (stripped). -/
theorem C5_blank_body_omitted (bodyText : List Char) :
    (request_content (body_arg_of_ui bodyText) = none ↔ pyStrip bodyText = []) ∧
    request_content (body_arg_of_ui bodyText) =
      (if pyStrip bodyText = [] then none else some (pyStrip bodyText)) := by
  unfold body_arg_of_ui request_content
  by_cases h : pyStrip bodyText = [] <;> simp [h]

/-- C8: a request round-trips through persistence — saving writes all five
fields under the `requests` wrapper and loading decodes the first entry
back, so `load (save r) = some r`. -/
theorem C8_round_trip (r : Porter.Request) :
    load_request (save_request r) = some r := rfl

/-- C2: `send_request` maps each `except` path to an error response whose
message is the timeout f-string, `"Connection error: "` plus the cause, or
`"Error: "` plus the cause respectively; the two cause-bearing messages
embed the underlying cause as a suffix. (That no exception escapes is
embedded in `send_request` being total over `TransportOutcome`: the final
`except Exception` clause catches everything not matched earlier.) -/
theorem C2_error_classification (t0 t1 : ℚ) (timeoutStr cause : String) :
    ((send_request t0 .timeout t1 timeoutStr).error =
      some ("Request timeout after " ++ timeoutStr ++ "s")) ∧
    ((send_request t0 (.connectError cause) t1 timeoutStr).error =
      some ("Connection error: " ++ cause)) ∧
    ((send_request t0 (.otherError cause) t1 timeoutStr).error =
      some ("Error: " ++ cause)) ∧
    cause.data <:+ ("Connection error: " ++ cause).data ∧
    cause.data <:+ ("Error: " ++ cause).data := by
  refine ⟨rfl, rfl, rfl, ?_, ?_⟩ <;>
    · rw [String.data_append]
      exact ⟨_, rfl⟩

/-- C10: a `send_request` result has a non-`None` error exactly on the
three failure paths, and every failure response carries status code 0, no
headers and an empty body; the success response's error is `None`. -/
theorem C10_failure_shape (t0 t1 : ℚ) (o : TransportOutcome) (ts : String) :
    ((send_request t0 o t1 ts).error.isSome = o.isFailure) ∧
    (o.isFailure = true →
      (send_request t0 o t1 ts).status_code = 0 ∧
      (send_request t0 o t1 ts).headers = [] ∧
      (send_request t0 o t1 ts).body = []) := by
  cases o <;> simp [send_request, TransportOutcome.isFailure]

/-- Witness for C10 at the timeout path. -/
theorem C10_failure_shape_witness :
    (send_request 0 .timeout 1 "30.0").error.isSome =
      TransportOutcome.timeout.isFailure ∧
    (send_request 0 .timeout 1 "30.0").status_code = 0 ∧
    (send_request 0 .timeout 1 "30.0").headers = [] ∧
    (send_request 0 .timeout 1 "30.0").body = [] := by
  have h := C10_failure_shape 0 1 .timeout "30.0"
  exact ⟨h.1, h.2 rfl⟩

/-- C4: on every path of `send_request` — success or any of the three
failure branches — the duration field equals `int((t1 - t0) * 1000)` with
`t0` sampled before any network activity, and it is non-negative whenever
the wall clock did not run backwards. -/
theorem C4_duration_always_populated (t0 t1 : ℚ) (h : t0 ≤ t1)
    (o : TransportOutcome) (ts : String) :
    (send_request t0 o t1 ts).duration_ms = pyInt ((t1 - t0) * 1000) ∧
    0 ≤ (send_request t0 o t1 ts).duration_ms := by
  have hx : (0 : ℚ) ≤ (t1 - t0) * 1000 :=
    mul_nonneg (sub_nonneg.2 h) (by norm_num)
  have hd : 0 ≤ pyInt ((t1 - t0) * 1000) := by
    unfold pyInt
    rw [if_pos hx]
    exact Int.floor_nonneg.2 hx
  cases o <;> exact ⟨rfl, hd⟩

/-- Witness for C4 at the timeout path with a one-second clock advance. -/
theorem C4_duration_always_populated_witness :
    (send_request 0 .timeout 1 "30.0").duration_ms = pyInt ((1 - 0) * 1000) ∧
    0 ≤ (send_request 0 .timeout 1 "30.0").duration_ms :=
  C4_duration_always_populated 0 1 (by norm_num) .timeout "30.0"

/-- A decoded body of 2,097,152 copies of U+0800 (a three-byte character in
UTF-8): 6,291,456 bytes of UTF-8, but only 2,097,152 characters. -/
def c1_multibyte_body : List Char := List.replicate 2097152 (Char.ofNat 2048)

/-- C1 counterexample: the claim's byte-based reading is false. This body
exceeds 5,242,880 **bytes** (it is 6,291,456 bytes of UTF-8), yet
`send_request` returns it unmodified with no marker, because the code
compares `len(response.text)` — the number of characters of the decoded
text — against the limit, not an encoded byte length. -/
theorem C1_truncation_counterexample :
    5242880 < utf8ByteLength c1_multibyte_body ∧
    (send_request 0 (.success 200 [] c1_multibyte_body) 1 "30.0").body =
      c1_multibyte_body := by
  constructor
  · have h3 : charUtf8Bytes (Char.ofNat 2048) = 3 := by decide
    unfold utf8ByteLength c1_multibyte_body
    rw [List.map_replicate, h3, List.sum_replicate, smul_eq_mul]
    norm_num
  · simp only [send_request]
    unfold truncate_body c1_multibyte_body max_size
    rw [List.length_replicate]
    norm_num

/-- C1 amended: truncation is by character count of the decoded text. A
body longer than 5,242,880 characters is cut to exactly 5,242,880
characters with the literal marker appended; a body of at most 5,242,880
characters is returned unmodified. The response carries no `truncated`
flag (`HTTPResponse` has no such field); truncation shows only through the
appended marker. -/
theorem C1_truncation_by_characters (t0 t1 : ℚ) (ts : String) (status : Nat)
    (hs : List (String × String)) (body : List Char) :
    (5242880 < body.length →
      (send_request t0 (.success status hs body) t1 ts).body =
        body.take 5242880 ++ truncation_marker) ∧
    (body.length ≤ 5242880 →
      (send_request t0 (.success status hs body) t1 ts).body = body) := by
  have hms : max_size = 5242880 := by norm_num [max_size]
  constructor
  · intro h
    show truncate_body body = _
    unfold truncate_body
    rw [hms, if_pos h]
  · intro h
    show truncate_body body = body
    unfold truncate_body
    rw [hms, if_neg (by omega)]

/-- Witness for the amended C1: a 5,242,881-character body is cut and
marked; a one-character body passes through. -/
theorem C1_truncation_by_characters_witness :
    (send_request 0 (.success 200 [] (List.replicate 5242881 'a')) 1 "30.0").body =
      List.replicate 5242880 'a' ++ truncation_marker ∧
    (send_request 0 (.success 200 [] ['a']) 1 "30.0").body = ['a'] := by
  constructor
  · have h := (C1_truncation_by_characters 0 1 "30.0" 200 []
      (List.replicate 5242881 'a')).1 (by rw [List.length_replicate]; norm_num)
    rw [h, List.take_replicate]
    norm_num
  · exact (C1_truncation_by_characters 0 1 "30.0" 200 [] ['a']).2 (by norm_num)

/-- C9 counterexample: `Request.__init__` stores the method exactly as
supplied — a lowercase `"get"` stays `"get"` in the constructed request, so
the stored method is neither uppercase nor drawn from the seven-method
list. -/
theorem C9_method_stored_verbatim :
    (Porter.Request.mk "get" "https://example.com" [] "" "r").method = "get" ∧
    (Porter.Request.mk "get" "https://example.com" [] "" "r").method ∉
      method_options := by
  exact ⟨rfl, by decide⟩

/-- C9 amended: the constructor performs no case normalisation — the
method field holds the supplied string verbatim — and uppercasing happens
at dispatch instead: `send_request` issues `method.upper()`, so any casing
of a method is issued uppercase, and the seven uppercase methods offered by
the UI are issued unchanged. -/
theorem C9_method_uppercased_at_dispatch (m u b n : String)
    (hs : List (String × String)) :
    (Porter.Request.mk m u hs b n).method = m ∧
    issued_method ((Porter.Request.mk m u hs b n).method) = pyUpper m ∧
    issued_method "get" = "GET" ∧
    (∀ x ∈ method_options, issued_method x = x) :=
  ⟨rfl, rfl, by decide, by decide⟩

/-- Witness for the amended C9 at `"get"` and `"GET"`. -/
theorem C9_method_uppercased_at_dispatch_witness :
    (Porter.Request.mk "get" "https://example.com" [] "" "r").method = "get" ∧
    issued_method "GET" = "GET" := by
  have h := C9_method_uppercased_at_dispatch "get" "https://example.com" "" "r" []
  exact ⟨h.1, h.2.2.2 "GET" (by decide)⟩

/-- C6: on a single-line input, `left` resolves to a previous-focus request
exactly when the cursor sits at column 0 (otherwise the field keeps the
key), and `right` to a next-focus request exactly when the cursor sits at
the end of the value; on a multi-line text area only `left` at `(0, 0)` and
`up` on the first line resolve to a previous-focus request, while `right`
and `down` always stay with the field. -/
theorem C6_text_field_boundaries {F : Type} [DecidableEq F] (fs : List F)
    (f : F) (cursor len row col : Nat) :
    ((∃ p, input_on_key fs f cursor len .left = NavAction.moveFocusTo p) ↔
      (cursor = 0 ∧ ∃ p, focus_previous fs f = NavAction.moveFocusTo p)) ∧
    (cursor ≠ 0 → input_on_key fs f cursor len .left = NavAction.noOp) ∧
    ((∃ p, input_on_key fs f cursor len .right = NavAction.moveFocusTo p) ↔
      (cursor = len ∧ ∃ p, focus_next fs f = NavAction.moveFocusTo p)) ∧
    (cursor ≠ len → input_on_key fs f cursor len .right = NavAction.noOp) ∧
    ((∃ p, textarea_on_key fs f row col .left = NavAction.moveFocusTo p) ↔
      ((row = 0 ∧ col = 0) ∧ ∃ p, focus_previous fs f = NavAction.moveFocusTo p)) ∧
    ((∃ p, textarea_on_key fs f row col .up = NavAction.moveFocusTo p) ↔
      (row = 0 ∧ ∃ p, focus_previous fs f = NavAction.moveFocusTo p)) ∧
    textarea_on_key fs f row col .right = NavAction.noOp ∧
    textarea_on_key fs f row col .down = NavAction.noOp := by
  refine ⟨?_, ?_, ?_, ?_, ?_, ?_, rfl, rfl⟩
  · by_cases h : cursor = 0 <;> simp [input_on_key, h]
  · intro h; simp [input_on_key, h]
  · by_cases h : cursor = len <;> simp [input_on_key, h]
  · intro h; simp [input_on_key, h]
  · by_cases h : row = 0 ∧ col = 0 <;> simp [textarea_on_key, h]
  · by_cases h : row = 0 <;> simp [textarea_on_key, h]

/-- Witness for C6 on the order `["a", "b"]` focused on `"b"`: `left` at
column 0 moves focus, `left` at column 2 is a `NoOp`. -/
theorem C6_text_field_boundaries_witness :
    (∃ p, input_on_key ["a", "b"] "b" 0 3 Direction.left =
      NavAction.moveFocusTo p) ∧
    input_on_key ["a", "b"] "b" 2 3 Direction.left = NavAction.noOp := by
  have h0 := C6_text_field_boundaries (["a", "b"] : List String) "b" 0 3 0 0
  have h2 := C6_text_field_boundaries (["a", "b"] : List String) "b" 2 3 0 0
  exact ⟨h0.1.2 ⟨rfl, "a", by decide⟩, h2.2.1 (by decide)⟩

/-- The traversal order of the spec's worked example. -/
def nav_example_order : List String := ["URL", "HeaderKey0", "HeaderValue0", "Send"]

/-- C7: `up`/`down` on a field and every arrow on a button always resolve
through the order passed in at key time (`focus_previous`/`focus_next`);
a widget absent from the order stays put, as does the first widget on any
previous-request and the last on any next-request; and in the order
`[URL, HeaderKey0, HeaderValue0, Send]`, `down` from `URL` moves focus to
`HeaderKey0` while `up` from `URL` stays. -/
theorem C7_order_resolution {F : Type} [DecidableEq F] (fs : List F) (f : F)
    (cursor len : Nat) :
    (input_on_key fs f cursor len .up = focus_previous fs f) ∧
    (input_on_key fs f cursor len .down = focus_next fs f) ∧
    (button_on_key fs f .up = focus_previous fs f) ∧
    (button_on_key fs f .down = focus_next fs f) ∧
    (button_on_key fs f .left = focus_previous fs f) ∧
    (button_on_key fs f .right = focus_next fs f) ∧
    (index_of fs f = none →
      focus_previous fs f = NavAction.stay ∧ focus_next fs f = NavAction.stay) ∧
    (index_of fs f = some 0 → focus_previous fs f = NavAction.stay) ∧
    (index_of fs f = some (fs.length - 1) → focus_next fs f = NavAction.stay) ∧
    (input_on_key nav_example_order "URL" cursor len .down =
      NavAction.moveFocusTo "HeaderKey0") ∧
    (input_on_key nav_example_order "URL" cursor len .up = NavAction.stay) := by
  refine ⟨rfl, rfl, rfl, rfl, rfl, rfl, ?_, ?_, ?_, ?_, ?_⟩
  · intro h
    exact ⟨by simp [focus_previous, h], by simp [focus_next, h]⟩
  · intro h
    simp [focus_previous, h]
  · intro h
    simp [focus_next, h]
  · show focus_next nav_example_order "URL" = _
    decide
  · show focus_previous nav_example_order "URL" = _
    decide

/-- Witness for C7 on the example order: `URL` is first (previous stays),
`Send` is last (next stays), an unknown widget stays, and `down` from `URL`
reaches `HeaderKey0`. -/
theorem C7_order_resolution_witness :
    focus_previous nav_example_order "URL" = NavAction.stay ∧
    focus_next nav_example_order "Send" = NavAction.stay ∧
    focus_previous nav_example_order "Other" = NavAction.stay ∧
    input_on_key nav_example_order "URL" 0 5 Direction.down =
      NavAction.moveFocusTo "HeaderKey0" := by
  obtain ⟨-, -, -, -, -, -, -, hfirst, -, hdown, -⟩ :=
    C7_order_resolution nav_example_order "URL" 0 5
  obtain ⟨-, -, -, -, -, -, -, -, hlast, -, -⟩ :=
    C7_order_resolution nav_example_order "Send" 0 5
  obtain ⟨-, -, -, -, -, -, habsent, -, -, -, -⟩ :=
    C7_order_resolution nav_example_order "Other" 0 5
  exact ⟨hfirst (by decide), hlast (by decide), (habsent (by decide)).1, hdown⟩

end Porter
